import Mathlib

/-!
Shallow embedding of the job-detection / synchronization pipeline of the
jd-scan browser extension.

Source files embedded here:
  * `src/entrypoints/content/index.tsx` — page context: `isLikelyJobPage`,
    `extractJobData`'s site-specific selector loop, the proactive polling
    scheduler (`pollJD`, `schedulePoll`, the initial 500/1500/3000 ms burst,
    the DOM-mutation observer, the click handler) and the URL-change
    observer of `OverlayApp`.
  * `src/entrypoints/sidepanel/App.tsx` — context listener: the
    `JD_FOUND` message listener, the `chrome.storage.onChanged` listener
    and the initial `jdScan_lastJob` read.

JavaScript strings are modelled as Lean `String` (sequences of characters);
`setTimeout` handles as increasing natural numbers starting at 1 (browser
handles are positive, and `if (debounceTimer)` tests JS truthiness);
the single-threaded event loop as a step function over an explicit event
type.  Delivery failures of `chrome.runtime.sendMessage` and
`chrome.storage.local.set` are modelled as boolean parameters of a poll
step, and the side effects of a poll are recorded as an action trace.
-/

set_option maxRecDepth 4000

namespace JDScan

/-- The extracted candidate returned by `extractJobData`:
`{ jd, title, company }` (the `debug` field carries no program state). -/
structure JobData where
  jd : String
  title : String
  company : String
deriving DecidableEq, Repr

/-- The constant `maxAttempts = 20` of the content script. -/
def maxAttempts : Nat := 20

/-- The minimum description length accepted by the poll step:
`data.jd.length >= 80`. -/
def minLength : Nat := 80

/-- The validity test `const jdOk = data.jd.length >= 80` of `pollJD`. -/
def jdOk (d : JobData) : Bool :=
  decide (minLength ≤ d.jd.length)

/-- JS `s.slice(0, n)`: the first `n` characters of `s`. -/
def strTake (s : String) (n : Nat) : String :=
  String.mk (s.toList.take n)

/-- The dedup key computed in `pollJD`:
``const key = `${data.title}::${data.company}::${data.jd.slice(0, 300)}` ``. -/
def fingerprint (d : JobData) : String :=
  d.title ++ "::" ++ d.company ++ "::" ++ strTake d.jd 300

/-- The constant storage key of the mirror write:
`chrome.storage.local.set({ jdScan_lastJob: ... })`. -/
def mirrorKey : String := "jdScan_lastJob"

/-- The record written to storage by `pollJD`:
`{ data, timestamp: Date.now(), url: window.location.href }`. -/
structure MirrorRecord where
  data : JobData
  timestamp : Nat
  url : String
deriving DecidableEq, Repr

/-- Observable side effects of one execution of the body of `pollJD`. -/
inductive Action where
  /-- The assignment `lastSentKey = key;`. -/
  | setLastKey (k : String)
  /-- The call `chrome.runtime.sendMessage({ type: "JD_FOUND", data }, cb)`;
  `delivered` records whether a listener received it. -/
  | broadcastAttempt (d : JobData) (delivered : Bool)
  /-- The call that persists `{ jdScan_lastJob: rec }` to local storage;
  `ok` records whether the write succeeded. -/
  | mirrorWriteAttempt (key : String) (rec : MirrorRecord) (ok : Bool)
  /-- An error escaping the poll step.  `pollJD` catches the `sendMessage`
  throw, checks `chrome.runtime.lastError` in the callback, and attaches a
  `.catch` to the storage promise, logging to the console in each case, so
  this action is never emitted. -/
  | surfaceError (msg : String)
deriving DecidableEq, Repr

/-- Whether an action is the `lastSentKey` assignment. -/
def Action.isSetLastKey : Action → Bool
  | Action.setLastKey _ => true
  | _ => false

/-- Model of `chrome.runtime.sendMessage`: it resolves when some context
listens and fails with "Could not establish connection. Receiving end does
not exist." when none does. -/
def trySendMessage (listenerAttached : Bool) : Except String Unit :=
  if listenerAttached then Except.ok ()
  else Except.error "Could not establish connection. Receiving end does not exist."

/-- The `try { chrome.runtime.sendMessage(...) } catch (e) { ... }` block of
`pollJD`: the failure branch only writes to the console. -/
def attemptBroadcast (d : JobData) (listenerAttached : Bool) : List Action :=
  match trySendMessage listenerAttached with
  | Except.ok _ => [Action.broadcastAttempt d true]
  | Except.error _ => [Action.broadcastAttempt d false]

/-- The `chrome.storage?.local?.set({...}).then(...).catch(...)` call of
`pollJD`: both continuations only write to the console. -/
def attemptMirrorWrite (d : JobData) (now : Nat) (url : String) (mirrorOk : Bool) :
    List Action :=
  [Action.mirrorWriteAttempt mirrorKey ⟨d, now, url⟩ mirrorOk]

/-- Result of one execution of the body of `pollJD`: its boolean return
value, the value of `lastSentKey` afterwards, and the action trace. -/
structure PollResult where
  success : Bool
  newKey : String
  trace : List Action
deriving DecidableEq, Repr

/-- The body of `pollJD` in the content script, with the extraction result
`d` passed in (in the source `extractJobData()` reads the live DOM).
`lastSentKey` is the closure variable of the same name; `now` is
`Date.now()`; `url` is `window.location.href`; `listenerAttached` and
`mirrorOk` are the outcomes of the two delivery attempts. -/
def pollJD (d : JobData) (lastSentKey : String) (now : Nat) (url : String)
    (listenerAttached mirrorOk : Bool) : PollResult :=
  -- `const key = ...` is `fingerprint d`; `if (jdOk && key !== lastSentKey)`
  if jdOk d ∧ fingerprint d ≠ lastSentKey then
    { success := true
      newKey := fingerprint d
      trace := Action.setLastKey (fingerprint d) ::
        (attemptBroadcast d listenerAttached ++ attemptMirrorWrite d now url mirrorOk) }
  else
    { success := false, newKey := lastSentKey, trace := [] }

/-- Scheduler state of the page context: the closure variables
`lastSentKey`, `attempts`, `debounceTimer` of `main`, together with the
set of live `setTimeout` timers (`pending`, as `(handle, delayMs)` pairs)
and the next handle the browser will hand out. -/
structure PageState where
  lastSentKey : String
  attempts : Nat
  debounceTimer : Option Nat
  pending : List (Nat × Nat)
  nextId : Nat
deriving DecidableEq, Repr

/-- Initial scheduler state, at the top of the
`if (isLikelyJobPage())` block. -/
def schedInit : PageState :=
  { lastSentKey := "", attempts := 0, debounceTimer := none,
    pending := [], nextId := 1 }

/-- The guarded cancellation
`if (debounceTimer) window.clearTimeout(debounceTimer);`: the live timers
that survive it. -/
def clearDebounce (st : PageState) : List (Nat × Nat) :=
  match st.debounceTimer with
  | some h => st.pending.filter (fun t => t.1 ≠ h)
  | none => st.pending

/-- The function `schedulePoll(delayMs)` of the content script:
`if (debounceTimer) window.clearTimeout(debounceTimer);`
then `debounceTimer = window.setTimeout(..., delayMs);`. -/
def schedulePoll (st : PageState) (delayMs : Nat) : PageState :=
  { st with
    debounceTimer := some st.nextId
    pending := clearDebounce st ++ [(st.nextId, delayMs)]
    nextId := st.nextId + 1 }

/-- The three calls issued right after the scheduler is set up:
`schedulePoll(500); schedulePoll(1500); schedulePoll(3000);`.
They run synchronously, before any timer can fire. -/
def initialBurst (st : PageState) : PageState :=
  schedulePoll (schedulePoll (schedulePoll st 500) 1500) 3000

/-- Substring test on character lists, the semantics of JS
`String.prototype.includes` used by `isLikelyJobPage`. -/
def charsHasPref : List Char → List Char → Bool
  | [], _ => true
  | _ :: _, [] => false
  | x :: xs, y :: ys => x == y && charsHasPref xs ys

/-- Whether `needle` occurs contiguously in the second list. -/
def charsIncl (needle : List Char) : List Char → Bool
  | [] => charsHasPref needle []
  | c :: t => charsHasPref needle (c :: t) || charsIncl needle t

/-- JS substring containment `hay.includes(needle)` on Lean strings. -/
def strIncludes (hay needle : String) : Bool :=
  charsIncl needle.toList hay.toList

/-- JS `href.toLowerCase()`, character by character. -/
def lowerStr (s : String) : String :=
  String.mk (s.toList.map Char.toLower)

/-- The URL classifier `isLikelyJobPage()` of the content script, with
`window.location.href` passed in. -/
def isLikelyJobPage (href : String) : Bool :=
  let url := lowerStr href
  strIncludes url "linkedin.com/jobs" ||
  strIncludes url "linkedin.com/jobs" ||
  (strIncludes url "linkedin.com" && (strIncludes url "/jobs" || strIncludes url "/job/")) ||
  strIncludes url "indeed.com" ||
  strIncludes url "glassdoor.com" ||
  strIncludes url "wellfound.com" ||
  strIncludes url "career" ||
  strIncludes url "/job/" ||
  strIncludes url "/jobs/" ||
  strIncludes url "apply"

/-- State of one page context: the scheduler plus the URL-change observer
of `OverlayApp` (`lastUrl` closure variable and the `isJobPage` React
state) and the live `window.location.href`. -/
structure ContextState where
  sched : PageState
  url : String
  lastUrl : String
  isJobPage : Bool
deriving DecidableEq, Repr

/-- External events driving one page context.  `timerFire` fires the live
debounce timer, with the result `d` of `extractJobData()` at that moment,
`Date.now() = now`, and the outcomes of the two delivery paths;
`mutation` is the DOM observer firing (`meaningful` is
`hasMeaningfulChange`); `click` is the document click listener;
`urlChange u` is `window.location.href` becoming `u` followed by the
`OverlayApp` mutation observer callback. -/
inductive Event where
  | timerFire (d : JobData) (now : Nat) (listenerAttached mirrorOk : Bool)
  | mutation (meaningful : Bool)
  | click
  | urlChange (u : String)
deriving DecidableEq, Repr

/-- One step of the page context on one event. -/
def step (ctx : ContextState) : Event → ContextState × Option PollResult
  | Event.timerFire d now la mo =>
    match ctx.sched.pending with
    | [] => (ctx, none)
    | _ :: rest =>
      -- the timer callback: `attempts++; const success = pollJD(attempts);
      -- if (!success && attempts < maxAttempts) schedulePoll(1000);`
      let a := ctx.sched.attempts + 1
      let res := pollJD d ctx.sched.lastSentKey now ctx.url la mo
      let st1 : PageState :=
        { ctx.sched with lastSentKey := res.newKey, attempts := a, pending := rest }
      let st2 := if res.success = false ∧ a < maxAttempts then schedulePoll st1 1000 else st1
      ({ ctx with sched := st2 }, some res)
  | Event.mutation meaningful =>
    -- `if (hasMeaningfulChange && isLikelyJobPage()) schedulePoll(600);`
    if meaningful ∧ isLikelyJobPage ctx.url then
      ({ ctx with sched := schedulePoll ctx.sched 600 }, none)
    else (ctx, none)
  | Event.click =>
    -- `attempts = 0; schedulePoll(800); schedulePoll(2000);`
    let st1 := { ctx.sched with attempts := 0 }
    ({ ctx with sched := schedulePoll (schedulePoll st1 800) 2000 }, none)
  | Event.urlChange u =>
    -- OverlayApp's observer: `if (href !== lastUrl) { setIsJobPage(isLikelyJobPage());
    -- lastUrl = href; }` — the scheduler closure is untouched.
    if u ≠ ctx.lastUrl then
      ({ ctx with url := u, lastUrl := u, isJobPage := isLikelyJobPage u }, none)
    else ({ ctx with url := u }, none)

/-- Initial context state on URL `u0`, after the initial burst has been
issued. -/
def ctxInit (u0 : String) : ContextState :=
  { sched := initialBurst schedInit
    url := u0
    lastUrl := u0
    isJobPage := isLikelyJobPage u0 }

/-- Run the page context over a list of events. -/
def run (ctx : ContextState) (evts : List Event) : ContextState :=
  evts.foldl (fun c e => (step c e).1) ctx

/-! ### Sidepanel context listener (`src/entrypoints/sidepanel/App.tsx`) -/

/-- The sidepanel state touched by the job-data listeners: the `jobData`
and `isManualMode` React states. -/
structure ListenerState where
  jobData : Option JobData
  isManualMode : Bool
deriving DecidableEq, Repr

/-- The `JD_FOUND` branch of `messageListener`:
`setJobData(msg.data); if (!isManualMode && msg.data.jd) setIsManualMode(false);`
(the second call writes `false` only when the captured flag is already
`false`, so `isManualMode` is unchanged either way). -/
def onJdFoundMessage (st : ListenerState) (d : JobData) : ListenerState :=
  let manual := if ¬ st.isManualMode ∧ d.jd ≠ "" then false else st.isManualMode
  { jobData := some d, isManualMode := manual }

/-- The `storageListener` branch for the `jdScan_lastJob` key:
`const newData = changes.jdScan_lastJob.newValue?.data; if (newData?.jd) setJobData(newData);`. -/
def onMirrorChange (st : ListenerState) (newValue : Option MirrorRecord) : ListenerState :=
  match newValue with
  | some rec =>
    if rec.data.jd ≠ "" then
      { jobData := some rec.data
        isManualMode := if ¬ st.isManualMode then false else st.isManualMode }
    else st
  | none => st

/-- The mount-time read
`chrome.storage?.local?.get("jdScan_lastJob", data => { if (data?.jdScan_lastJob?.data?.jd) setJobData(...); })`. -/
def onInitialMirrorRead (st : ListenerState) (stored : Option MirrorRecord) : ListenerState :=
  match stored with
  | some rec =>
    if rec.data.jd ≠ "" then
      { jobData := some rec.data
        isManualMode := if ¬ st.isManualMode then false else st.isManualMode }
    else st
  | none => st

/-! ### Site-specific selector stage of `extractJobData` -/

/-- The update performed for one selector of `linkedInSelectors`:
`if (text.length > jd.length && text.length > 50) { jd = text; }`. -/
def siteStep (jd text : String) : String :=
  if jd.length < text.length ∧ 50 < text.length then text else jd

/-- The `for (const selector of linkedInSelectors)` loop, with the text
found under each selector passed in, in selector-list order (an absent
selector contributes the empty string, which never passes the
length gate). -/
def siteSpecificPick (texts : List String) : String :=
  texts.foldl siteStep ""

/-! ### Auxiliary predicates and sample values used in the statements -/

/-- The scheduler invariant: at most one live timer, and any live timer is
the one remembered in `debounceTimer` (so `clearTimeout(debounceTimer)`
really cancels it). -/
def Inv (st : PageState) : Prop :=
  st.pending.length ≤ 1 ∧ ∀ p ∈ st.pending, st.debounceTimer = some p.1

/-- Whether an event is a timer expiry (as opposed to an external signal). -/
def isTimerEvent : Event → Bool
  | Event.timerFire _ _ _ _ => true
  | _ => false

/-- Whether an event, if it is a timer expiry, carries an extraction result
whose fingerprint is `K`. -/
def eventFpOk (K : String) : Event → Bool
  | Event.timerFire d _ _ _ => fingerprint d == K
  | _ => true

/-- A candidate whose description has exactly 79 characters. -/
def sample79 : JobData :=
  { jd := String.mk (List.replicate 79 'a'), title := "T", company := "C" }

/-- A candidate whose description has exactly 80 characters. -/
def sample80 : JobData :=
  { jd := String.mk (List.replicate 80 'a'), title := "T", company := "C" }

/-- A context whose scheduler holds one live timer. -/
def ctxOneTimer : ContextState :=
  { sched := { lastSentKey := "", attempts := 0, debounceTimer := some 3,
               pending := [(3, 3000)], nextId := 4 }
    url := "https://www.linkedin.com/jobs/view/1"
    lastUrl := "https://www.linkedin.com/jobs/view/1"
    isJobPage := true }

/-- A context at the attempt cap with no live timer. -/
def ctxExhausted : ContextState :=
  { sched := { lastSentKey := "", attempts := 20, debounceTimer := some 5,
               pending := [], nextId := 6 }
    url := "https://www.linkedin.com/jobs/view/1"
    lastUrl := "https://www.linkedin.com/jobs/view/1"
    isJobPage := true }

/-- A context at the attempt cap with one live timer. -/
def ctxExhaustedTimer : ContextState :=
  { sched := { lastSentKey := "", attempts := 20, debounceTimer := some 5,
               pending := [(5, 600)], nextId := 6 }
    url := "https://www.linkedin.com/jobs/view/1"
    lastUrl := "https://www.linkedin.com/jobs/view/1"
    isJobPage := true }

/-- A context that already propagated `sample80`. -/
def ctxSent : ContextState :=
  { sched := { lastSentKey := fingerprint sample80, attempts := 7,
               debounceTimer := some 3, pending := [(3, 1000)], nextId := 4 }
    url := "https://www.linkedin.com/jobs/view/1"
    lastUrl := "https://www.linkedin.com/jobs/view/1"
    isJobPage := true }

/-- Two distinct candidates with equal fingerprints: the separator "::" is
not escaped, so `{title: "a::b", company: "c"}` and
`{title: "a", company: "b::c"}` collide. -/
def sampleAmbA : JobData := { jd := "x", title := "a::b", company := "c" }

/-- The colliding partner of `sampleAmbA`. -/
def sampleAmbB : JobData := { jd := "x", title := "a", company := "b::c" }

/-- A listener state currently holding `sampleAmbA`. -/
def listenerA : ListenerState := { jobData := some sampleAmbA, isManualMode := false }

/-- A 51-character text (sufficiently long for the selector gate). -/
def text51 : String := String.mk (List.replicate 51 'a')

/-- A 60-character text. -/
def text60b : String := String.mk (List.replicate 60 'b')

/-! ## Helper lemmas -/

/-- Unfolding `run` on the empty event list. -/
theorem run_nil (ctx : ContextState) : run ctx [] = ctx := rfl

/-- Unfolding `run` on a cons. -/
theorem run_cons (ctx : ContextState) (e : Event) (t : List Event) :
    run ctx (e :: t) = run (step ctx e).1 t := rfl

/-- The poll step succeeds exactly on a valid candidate with a fresh
fingerprint. -/
theorem pollJD_success_iff (d : JobData) (k : String) (n : Nat) (u : String)
    (la mo : Bool) :
    (pollJD d k n u la mo).success = true ↔ (jdOk d = true ∧ fingerprint d ≠ k) := by
  by_cases h : jdOk d = true ∧ fingerprint d ≠ k <;> simp [pollJD, h]

/-- The poll step on an invalid or duplicate candidate changes nothing. -/
theorem pollJD_fail_eq (d : JobData) (k : String) (n : Nat) (u : String)
    (la mo : Bool) (h : ¬(jdOk d = true ∧ fingerprint d ≠ k)) :
    pollJD d k n u la mo = { success := false, newKey := k, trace := [] } := by
  simp [pollJD, h]

/-- The poll step on a valid, fresh candidate: full characterization. -/
theorem pollJD_succ_eq (d : JobData) (k : String) (n : Nat) (u : String)
    (la mo : Bool) (h1 : jdOk d = true) (h2 : fingerprint d ≠ k) :
    pollJD d k n u la mo =
      { success := true
        newKey := fingerprint d
        trace := Action.setLastKey (fingerprint d) ::
          (attemptBroadcast d la ++ attemptMirrorWrite d n u mo) } := by
  simp [pollJD, h1, h2]

/-- Polling a candidate whose fingerprint equals the stored key fails. -/
theorem pollJD_self (d : JobData) (n : Nat) (u : String) (la mo : Bool) :
    pollJD d (fingerprint d) n u la mo =
      { success := false, newKey := fingerprint d, trace := [] } := by
  simp [pollJD]

/-- Scheduling does not touch `lastSentKey`. -/
theorem schedulePoll_lastSentKey (st : PageState) (dl : Nat) :
    (schedulePoll st dl).lastSentKey = st.lastSentKey := rfl

/-- Scheduling does not touch `attempts`. -/
theorem schedulePoll_attempts (st : PageState) (dl : Nat) :
    (schedulePoll st dl).attempts = st.attempts := rfl

/-- Any state with no live timer satisfies the scheduler invariant. -/
theorem inv_of_pending_nil (st : PageState) (h : st.pending = []) : Inv st :=
  ⟨by simp [h], by simp [h]⟩

/-- Under the invariant, the guarded `clearTimeout` cancels every live
timer. -/
theorem clearDebounce_eq_nil (st : PageState) (h : Inv st) : clearDebounce st = [] := by
  obtain ⟨h1, h2⟩ := h
  unfold clearDebounce
  cases hdt : st.debounceTimer with
  | none =>
    cases hp : st.pending with
    | nil => rfl
    | cons p t =>
      have := h2 p (by simp [hp])
      rw [hdt] at this
      cases this
  | some hh =>
    cases hp : st.pending with
    | nil => rfl
    | cons p t =>
      have ht : t = [] := by
        rw [hp] at h1
        simp only [List.length_cons] at h1
        exact List.length_eq_zero.mp (by omega)
      have hph := h2 p (by simp [hp])
      rw [hdt] at hph
      have hp1 : p.1 = hh := (Option.some.inj hph).symm
      subst ht
      simp [hp, List.filter, hp1]

/-- Scheduling preserves the invariant: the new state has exactly one
live timer. -/
theorem inv_schedulePoll (st : PageState) (dl : Nat) (h : Inv st) :
    Inv (schedulePoll st dl) := by
  have hc := clearDebounce_eq_nil st h
  constructor
  · simp [schedulePoll, hc]
  · intro p hp
    simp only [schedulePoll, hc, List.nil_append, List.mem_singleton] at hp
    rw [hp]
    rfl

/-- Every step of the page context preserves the scheduler invariant. -/
theorem inv_step (ctx : ContextState) (e : Event) (h : Inv ctx.sched) :
    Inv ((step ctx e).1).sched := by
  cases e with
  | timerFire d n la mo =>
    cases hp : ctx.sched.pending with
    | nil => simpa [step, hp] using h
    | cons p rest =>
      have hrest : rest = [] := by
        have h1 := h.1
        rw [hp] at h1
        simp only [List.length_cons] at h1
        exact List.length_eq_zero.mp (by omega)
      subst hrest
      simp only [step, hp]
      split
      · exact inv_schedulePoll _ _ (inv_of_pending_nil _ rfl)
      · exact inv_of_pending_nil _ rfl
  | mutation m =>
    simp only [step]
    split
    · exact inv_schedulePoll _ _ h
    · exact h
  | click =>
    simp only [step]
    exact inv_schedulePoll _ _ (inv_schedulePoll _ _ ⟨h.1, h.2⟩)
  | urlChange u =>
    simp only [step]
    split
    · exact ⟨h.1, h.2⟩
    · exact ⟨h.1, h.2⟩

/-- The invariant holds along every run. -/
theorem inv_run (evts : List Event) :
    ∀ ctx : ContextState, Inv ctx.sched → Inv ((run ctx evts).sched) := by
  induction evts with
  | nil => intro ctx h; simpa [run_nil] using h
  | cons e t ih =>
    intro ctx h
    rw [run_cons]
    exact ih _ (inv_step ctx e h)

/-- One step never changes `lastSentKey` unless a fresh fingerprint is
successfully propagated. -/
theorem lastKey_step (ctx : ContextState) (e : Event) (K : String)
    (hK : ctx.sched.lastSentKey = K) (he : eventFpOk K e = true) :
    ((step ctx e).1).sched.lastSentKey = K := by
  cases e with
  | timerFire d n la mo =>
    cases hp : ctx.sched.pending with
    | nil => simp [step, hp, hK]
    | cons p rest =>
      have hfp : fingerprint d = K := by simpa [eventFpOk] using he
      have hpoll : pollJD d ctx.sched.lastSentKey n ctx.url la mo =
          { success := false, newKey := ctx.sched.lastSentKey, trace := [] } := by
        rw [hK, ← hfp]
        exact pollJD_self d n ctx.url la mo
      simp only [step, hp]
      rw [hpoll]
      split <;> simp [schedulePoll, hK]
  | mutation m =>
    simp only [step]
    split <;> simp [schedulePoll, hK]
  | click =>
    simp only [step]
    simp [schedulePoll, hK]
  | urlChange u =>
    simp only [step]
    split <;> simpa using hK


/-- Along a run whose timer events all carry fingerprint `K`, the stored
key `K` never changes. -/
theorem lastKey_run (K : String) (evts : List Event) :
    ∀ ctx : ContextState, ctx.sched.lastSentKey = K →
      evts.all (eventFpOk K) = true →
      (run ctx evts).sched.lastSentKey = K := by
  induction evts with
  | nil => intro ctx hK _; simpa [run_nil] using hK
  | cons e t ih =>
    intro ctx hK hall
    rw [List.all_cons, Bool.and_eq_true] at hall
    rw [run_cons]
    exact ih _ (lastKey_step ctx e K hK hall.1) hall.2

/-- A timer event on a context with no live timer does nothing. -/
theorem quiesce_step (ctx : ContextState) (e : Event)
    (hp : ctx.sched.pending = []) (ht : isTimerEvent e = true) :
    step ctx e = (ctx, none) := by
  cases e with
  | timerFire d n la mo => simp [step, hp]
  | mutation m => simp [isTimerEvent] at ht
  | click => simp [isTimerEvent] at ht
  | urlChange u => simp [isTimerEvent] at ht

/-- With no live timer and no external signal, the context never moves. -/
theorem quiesce_run (evts : List Event) :
    ∀ ctx : ContextState, ctx.sched.pending = [] →
      evts.all isTimerEvent = true → run ctx evts = ctx := by
  induction evts with
  | nil => intro ctx _ _; exact run_nil ctx
  | cons e t ih =>
    intro ctx hp hall
    rw [List.all_cons, Bool.and_eq_true] at hall
    rw [run_cons, quiesce_step ctx e hp hall.1]
    exact ih ctx hp hall.2

/-- Characterization of the selector fold: the accumulator never shrinks,
the result is the accumulator or one of the texts, and the result is at
least as long as every sufficiently long text. -/
theorem siteFold_spec (ts : List String) :
    ∀ acc : String,
      (ts.foldl siteStep acc = acc ∨ ts.foldl siteStep acc ∈ ts) ∧
      acc.length ≤ (ts.foldl siteStep acc).length ∧
      ∀ t ∈ ts, 50 < t.length → t.length ≤ (ts.foldl siteStep acc).length := by
  induction ts with
  | nil => intro acc; simp
  | cons t ts ih =>
    intro acc
    rw [List.foldl_cons]
    obtain ⟨ih1, ih2, ih3⟩ := ih (siteStep acc t)
    refine ⟨?_, ?_, ?_⟩
    · rcases ih1 with h | h
      · rw [h]
        unfold siteStep
        split
        · exact Or.inr (by simp)
        · exact Or.inl rfl
      · exact Or.inr (List.mem_cons_of_mem _ h)
    · have hstep : acc.length ≤ (siteStep acc t).length := by
        unfold siteStep
        split
        · next hcond => exact Nat.le_of_lt hcond.1
        · exact Nat.le_refl _
      exact le_trans hstep ih2
    · intro s hs h50
      rcases List.mem_cons.mp hs with rfl | hs'
      · have hself : s.length ≤ (siteStep acc s).length := by
          unfold siteStep
          split
          · exact Nat.le_refl _
          · next hcond =>
            push_neg at hcond
            have hnl : ¬ acc.length < s.length :=
              fun hl => Nat.lt_irrefl 50 (Nat.lt_of_lt_of_le h50 (hcond hl))
            omega
        exact le_trans hself ih2
      · exact ih3 s hs' h50

/-! ## Claims -/

/-- C1: in the scheduler's poll step a candidate is treated as valid
exactly when its description has at least 80 characters: a 79-character
description is rejected and takes the retry path (a fresh 1000 ms timer is
scheduled when under the attempt cap), while an 80-character description
is accepted and passed on to the dedup/propagation step. -/
theorem C1_min_length_gate (d : JobData) (k : String) (n : Nat) (u : String)
    (la mo : Bool) (ctx : ContextState) (p : Nat × Nat) :
    (d.jd.length = 79 → (pollJD d k n u la mo).success = false) ∧
    (d.jd.length = 80 → fingerprint d ≠ k → (pollJD d k n u la mo).success = true) ∧
    (d.jd.length = 79 → ctx.sched.pending = [p] →
      ctx.sched.attempts + 1 < maxAttempts →
      (step ctx (Event.timerFire d n la mo)).1.sched.pending.map Prod.snd = [1000]) := by
  have h79 : d.jd.length = 79 → jdOk d = false := by
    intro h
    simp [jdOk, minLength, h]
  refine ⟨?_, ?_, ?_⟩
  · intro h
    rw [pollJD_fail_eq d k n u la mo (by simp [h79 h])]
  · intro h hne
    have hok : jdOk d = true := by simp [jdOk, minLength, h]
    rw [pollJD_succ_eq d k n u la mo hok hne]
  · intro h hp hlt
    have hfail := pollJD_fail_eq d ctx.sched.lastSentKey n ctx.url la mo (by simp [h79 h])
    cases hdt : ctx.sched.debounceTimer <;>
      simp [step, hp, hfail, hlt, schedulePoll, clearDebounce, hdt]

/-- Witness for C1 at concrete 79- and 80-character candidates. -/
theorem C1_min_length_gate_witness :
    (pollJD sample79 "" 0 "u" false false).success = false ∧
    (pollJD sample80 "" 0 "u" true true).success = true ∧
    (step ctxOneTimer (Event.timerFire sample79 0 false false)).1.sched.pending.map
      Prod.snd = [1000] := by
  refine ⟨?_, ?_, ?_⟩
  · exact (C1_min_length_gate sample79 "" 0 "u" false false ctxOneTimer (3, 3000)).1
      (by decide)
  · exact (C1_min_length_gate sample80 "" 0 "u" true true ctxOneTimer (3, 3000)).2.1
      (by decide) (by decide)
  · exact (C1_min_length_gate sample79 "" 0 "u" false false ctxOneTimer (3, 3000)).2.2
      (by decide) (by decide) (by decide)

/-- C2: the fingerprint is exactly
`title ++ "::" ++ company ++ "::" ++ description.slice(0, 300)`; for a
valid candidate propagation happens iff the fingerprint differs from
`lastSentKey`; and after a successful propagation a second candidate with
an equal fingerprint never propagates. -/
theorem C2_fingerprint_dedup (d d2 : JobData) (k : String) (n n2 : Nat)
    (u u2 : String) (la mo la2 mo2 : Bool) :
    fingerprint d = d.title ++ "::" ++ d.company ++ "::" ++ strTake d.jd 300 ∧
    (jdOk d = true → ((pollJD d k n u la mo).success = true ↔ fingerprint d ≠ k)) ∧
    ((pollJD d k n u la mo).success = true → fingerprint d2 = fingerprint d →
      (pollJD d2 (pollJD d k n u la mo).newKey n2 u2 la2 mo2).success = false) := by
  refine ⟨rfl, ?_, ?_⟩
  · intro hok
    rw [pollJD_success_iff]
    simp [hok]
  · intro hs hfp
    have hcond := (pollJD_success_iff d k n u la mo).mp hs
    have hnk : (pollJD d k n u la mo).newKey = fingerprint d := by
      rw [pollJD_succ_eq d k n u la mo hcond.1 hcond.2]
    rw [hnk, ← hfp, pollJD_self]

/-- Witness for C2 at a concrete valid candidate. -/
theorem C2_fingerprint_dedup_witness :
    ((pollJD sample80 "" 0 "u" true true).success = true ↔ fingerprint sample80 ≠ "") ∧
    (pollJD sample80 (pollJD sample80 "" 0 "u" true true).newKey 1 "v" false
      false).success = false := by
  refine ⟨?_, ?_⟩
  · exact (C2_fingerprint_dedup sample80 sample80 "" 0 1 "u" "v" true true false
      false).2.1 (by decide)
  · exact (C2_fingerprint_dedup sample80 sample80 "" 0 1 "u" "v" true true false
      false).2.2 (by decide) rfl

/-- C3 fails on the code: the initial 500/1500/3000 ms burst goes through
the debouncing `schedulePoll`, each call cancelling the previous timer, so
after the burst only the 3000 ms evaluation is pending and the 500 ms and
1500 ms evaluations can never fire. -/
theorem C3_counterexample :
    (initialBurst schedInit).pending.map Prod.snd = [3000] ∧
    500 ∉ (initialBurst schedInit).pending.map Prod.snd ∧
    1500 ∉ (initialBurst schedInit).pending.map Prod.snd ∧
    (initialBurst schedInit).pending.length ≠ 3 := by
  refine ⟨?_, ?_, ?_, ?_⟩ <;> decide

/-- C3 amended: on first becoming a likely job page three schedule
requests are issued at 500, 1500 and 3000 ms, but each goes through the
debounce, cancelling its predecessor: the burst leaves exactly one live
timer, the 3000 ms one. -/
theorem C3_burst_collapsed :
    initialBurst schedInit =
      { lastSentKey := "", attempts := 0, debounceTimer := some 3,
        pending := [(3, 3000)], nextId := 4 } := by
  decide

/-- C4: at every reachable state of the page context at most one
evaluation timer is pending — every scheduling request cancels and
replaces the live timer, so rapid re-evaluate signals never stack. -/
theorem C4_at_most_one_timer (u0 : String) (evts : List Event) :
    (run (ctxInit u0) evts).sched.pending.length ≤ 1 := by
  have h0 : Inv (ctxInit u0).sched := by
    show Inv (initialBurst schedInit)
    refine ⟨?_, ?_⟩ <;> decide
  exact (inv_run evts (ctxInit u0) h0).1

/-- C5 fails on the code: with `attempts` at the cap, a DOM-mutation
signal schedules an evaluation but does not reset the counter — the
evaluation runs with `attempts = 21`, not 0. -/
theorem C5_counterexample :
    (run ctxExhausted [Event.mutation true]).sched.attempts = 20 ∧
    ((step (run ctxExhausted [Event.mutation true])
        (Event.timerFire sample79 0 false false)).2).isSome = true ∧
    (step (run ctxExhausted [Event.mutation true])
        (Event.timerFire sample79 0 false false)).1.sched.attempts = 21 := by
  refine ⟨?_, ?_, ?_⟩ <;> decide

/-- C5 amended: once the cap is reached the retry chain stops (a timer
firing at the cap schedules no successor) and with no live timer no timer
event ever changes the context; a click resets `attempts` to 0 before
scheduling, but a DOM mutation does not reset it, and a URL change leaves
the scheduler untouched. -/
theorem C5_cap_and_signals (ctx : ContextState) (d : JobData) (n : Nat)
    (la mo : Bool) (u : String) (p : Nat × Nat) (rest : List (Nat × Nat))
    (evts : List Event) :
    (ctx.sched.pending = [] → evts.all isTimerEvent = true → run ctx evts = ctx) ∧
    (ctx.sched.pending = p :: rest → maxAttempts ≤ ctx.sched.attempts + 1 →
      (step ctx (Event.timerFire d n la mo)).1.sched.pending = rest) ∧
    (step ctx (Event.mutation true)).1.sched.attempts = ctx.sched.attempts ∧
    (step ctx Event.click).1.sched.attempts = 0 ∧
    (step ctx (Event.urlChange u)).1.sched = ctx.sched := by
  refine ⟨?_, ?_, ?_, ?_, ?_⟩
  · intro hp hall
    exact quiesce_run evts ctx hp hall
  · intro hp hcap
    simp only [step, hp]
    split
    · next hcond => exact absurd hcond.2 (by omega)
    · rfl
  · simp only [step]
    split <;> rfl
  · rfl
  · simp only [step]
    split <;> rfl

/-- Witness for C5 at the attempt cap. -/
theorem C5_cap_and_signals_witness :
    run ctxExhausted [Event.timerFire sample80 0 true true] = ctxExhausted ∧
    (step ctxExhaustedTimer (Event.timerFire sample79 0 false false)).1.sched.pending
      = [] := by
  refine ⟨?_, ?_⟩
  · exact (C5_cap_and_signals ctxExhausted sample80 0 true true "u" (0, 0) []
      [Event.timerFire sample80 0 true true]).1 (by decide) (by decide)
  · exact (C5_cap_and_signals ctxExhaustedTimer sample79 0 false false "u" (5, 600) []
      []).2.1 (by decide) (by decide)

/-- C6 fails on the code: the URL observer only updates the overlay's
tracked URL and job-page flag; after a URL change `attempts` is still 7
and `lastSentKey` still holds the previous fingerprint, so a valid
extraction with that same fingerprint is still suppressed by the dedup
gate. -/
theorem C6_counterexample :
    (step ctxSent (Event.urlChange "https://www.linkedin.com/jobs/view/2")).1.sched.attempts
      = 7 ∧
    (step ctxSent (Event.urlChange "https://www.linkedin.com/jobs/view/2")).1.sched.lastSentKey
      = fingerprint sample80 ∧
    fingerprint sample80 ≠ "" ∧
    jdOk sample80 = true ∧
    ((step (step ctxSent (Event.urlChange "https://www.linkedin.com/jobs/view/2")).1
        (Event.timerFire sample80 9 true true)).2.map PollResult.success = some false) := by
  refine ⟨?_, ?_, ?_, ?_, ?_⟩ <;> decide

/-- C6 amended: a detected URL change leaves the scheduler state exactly
as it was — neither `attempts` nor `lastSentKey` is reset; only the
overlay's tracked URL and job-page flag change. -/
theorem C6_nav_keeps_scheduler (ctx : ContextState) (u : String) :
    (step ctx (Event.urlChange u)).1.sched = ctx.sched ∧
    (step ctx (Event.urlChange u)).2 = none ∧
    (step ctx (Event.urlChange u)).1.url = u := by
  refine ⟨?_, ?_, ?_⟩ <;> (simp only [step]; split <;> rfl)

/-- C7: on a valid candidate with a fresh fingerprint both delivery paths
are attempted unconditionally and independently: the broadcast attempt and
the mirror write of `{ data, timestamp, url }` under the constant key both
appear in the trace whatever the delivery outcomes, and no error is ever
surfaced — a broadcast with no listener attached is swallowed and does not
prevent the mirror write. -/
theorem C7_dual_path (d : JobData) (k : String) (n : Nat) (u : String)
    (la mo : Bool) :
    (pollJD d k n u la mo).success = true →
      Action.broadcastAttempt d la ∈ (pollJD d k n u la mo).trace ∧
      Action.mirrorWriteAttempt mirrorKey ⟨d, n, u⟩ mo ∈ (pollJD d k n u la mo).trace ∧
      ∀ msg, Action.surfaceError msg ∉ (pollJD d k n u la mo).trace := by
  intro hs
  have hcond := (pollJD_success_iff d k n u la mo).mp hs
  rw [pollJD_succ_eq d k n u la mo hcond.1 hcond.2]
  refine ⟨?_, ?_, ?_⟩
  · cases la <;> simp [attemptBroadcast, trySendMessage]
  · cases la <;> simp [attemptBroadcast, attemptMirrorWrite, trySendMessage]
  · intro msg
    cases la <;> simp [attemptBroadcast, attemptMirrorWrite, trySendMessage]

/-- Witness for C7 with the broadcast failing (no listener attached) and
the mirror write failing too. -/
theorem C7_dual_path_witness :
    Action.broadcastAttempt sample80 false ∈ (pollJD sample80 "" 0 "u" false false).trace ∧
    Action.mirrorWriteAttempt mirrorKey ⟨sample80, 0, "u"⟩ false ∈
      (pollJD sample80 "" 0 "u" false false).trace ∧
    Action.surfaceError "x" ∉ (pollJD sample80 "" 0 "u" false false).trace := by
  have h := C7_dual_path sample80 "" 0 "u" false false (by decide)
  exact ⟨h.1, h.2.1, h.2.2 "x"⟩

/-- C8 fails on the code: the sidepanel listener applies every `JD_FOUND`
message unconditionally, with no fingerprint re-check — a message whose
payload has the same fingerprint as the current in-memory value still
changes the state. -/
theorem C8_counterexample :
    fingerprint sampleAmbB = fingerprint sampleAmbA ∧
    listenerA.jobData = some sampleAmbA ∧
    (onJdFoundMessage listenerA sampleAmbB).jobData ≠ listenerA.jobData := by
  refine ⟨?_, ?_, ?_⟩ <;> decide

/-- C8 amended: the listener performs no fingerprint comparison: a
`JD_FOUND` message is applied unconditionally and a mirror change or
initial read whenever the stored description is non-empty; applying the
identical envelope twice changes state at most once only because the
second application writes an equal value. -/
theorem C8_unconditional_apply (st : ListenerState) (d : JobData)
    (v : Option MirrorRecord) :
    (onJdFoundMessage st d).jobData = some d ∧
    onJdFoundMessage (onJdFoundMessage st d) d = onJdFoundMessage st d ∧
    onMirrorChange (onMirrorChange st v) v = onMirrorChange st v ∧
    onInitialMirrorRead st v = onMirrorChange st v := by
  refine ⟨rfl, ?_, ?_, ?_⟩
  · unfold onJdFoundMessage
    by_cases hjd : d.jd = "" <;> cases hm : st.isManualMode <;> simp [hjd, hm]
  · cases v with
    | none => rfl
    | some r =>
      unfold onMirrorChange
      by_cases hjd : r.data.jd = "" <;> cases hm : st.isManualMode <;> simp [hjd, hm]
  · cases v with
    | none => rfl
    | some r => rfl

/-- C9 fails on the code: the selector loop keeps the longest text above
the 50-character threshold, so a later, longer text replaces an earlier
non-empty, sufficiently long match. -/
theorem C9_counterexample :
    50 < text51.length ∧ text51 ≠ "" ∧
    siteSpecificPick [text51, text60b] = text60b ∧
    text60b ≠ text51 := by
  refine ⟨?_, ?_, ?_, ?_⟩ <;> decide

/-- C9 amended: the selectors are evaluated in their fixed order but the
winner is the longest text exceeding 50 characters: a later text replaces
the current winner exactly when strictly longer and above the threshold,
and the final pick is empty or one of the texts, at least as long as every
sufficiently long candidate. -/
theorem C9_longest_text_wins (texts : List String) (jd t : String) :
    siteStep jd t = (if jd.length < t.length ∧ 50 < t.length then t else jd) ∧
    (siteSpecificPick texts = "" ∨ siteSpecificPick texts ∈ texts) ∧
    (∀ s ∈ texts, 50 < s.length → s.length ≤ (siteSpecificPick texts).length) := by
  obtain ⟨h1, _, h3⟩ := siteFold_spec texts ""
  exact ⟨rfl, h1, h3⟩

/-- Witness for C9 amended at the concrete selector texts. -/
theorem C9_longest_text_wins_witness :
    text51.length ≤ (siteSpecificPick [text51, text60b]).length :=
  (C9_longest_text_wins [text51, text60b] "" "").2.2 text51 (by decide) (by decide)

/-- C10: on a successful poll `lastSentKey` is assigned the new
fingerprint before either delivery attempt (it heads the trace and is
assigned exactly once), the assignment and the poll outcome are
independent of both delivery outcomes (so a failure never rolls it back),
and a candidate whose fingerprint equals the stored key is never
re-propagated — along any run whose timer events all carry that same
fingerprint the stored key never changes. -/
theorem C10_key_updated_first (d d2 : JobData) (k K : String) (n n2 : Nat)
    (u u2 : String) (la mo la' mo' la2 mo2 : Bool) (ctx : ContextState)
    (evts : List Event) :
    ((pollJD d k n u la mo).success = true →
      (pollJD d k n u la mo).trace.head? = some (Action.setLastKey (fingerprint d)) ∧
      ((pollJD d k n u la mo).trace.filter Action.isSetLastKey).length = 1 ∧
      (pollJD d k n u la mo).newKey = fingerprint d) ∧
    (pollJD d k n u la mo).newKey = (pollJD d k n u la' mo').newKey ∧
    (pollJD d k n u la mo).success = (pollJD d k n u la' mo').success ∧
    (fingerprint d2 = k → (pollJD d2 k n2 u2 la2 mo2).success = false) ∧
    (ctx.sched.lastSentKey = K → evts.all (eventFpOk K) = true →
      (run ctx evts).sched.lastSentKey = K) := by
  refine ⟨?_, ?_, ?_, ?_, ?_⟩
  · intro hs
    have hcond := (pollJD_success_iff d k n u la mo).mp hs
    rw [pollJD_succ_eq d k n u la mo hcond.1 hcond.2]
    refine ⟨rfl, ?_, rfl⟩
    cases la <;>
      simp [attemptBroadcast, attemptMirrorWrite, trySendMessage, List.filter,
        Action.isSetLastKey]
  · by_cases h : jdOk d = true ∧ fingerprint d ≠ k
    · rw [pollJD_succ_eq d k n u la mo h.1 h.2, pollJD_succ_eq d k n u la' mo' h.1 h.2]
    · rw [pollJD_fail_eq d k n u la mo h, pollJD_fail_eq d k n u la' mo' h]
  · by_cases h : jdOk d = true ∧ fingerprint d ≠ k
    · rw [pollJD_succ_eq d k n u la mo h.1 h.2, pollJD_succ_eq d k n u la' mo' h.1 h.2]
    · rw [pollJD_fail_eq d k n u la mo h, pollJD_fail_eq d k n u la' mo' h]
  · intro hfp
    rw [← hfp, pollJD_self]
  · intro hK hall
    exact lastKey_run K evts ctx hK hall

/-- Witness for C10 at a concrete candidate, with both delivery paths
failing on the re-propagation check. -/
theorem C10_key_updated_first_witness :
    (pollJD sample80 "" 0 "u" false false).trace.head? =
      some (Action.setLastKey (fingerprint sample80)) ∧
    (pollJD sample80 (fingerprint sample80) 1 "u" false false).success = false ∧
    (run ctxSent [Event.timerFire sample80 0 false false]).sched.lastSentKey =
      fingerprint sample80 := by
  have h := C10_key_updated_first sample80 sample80 "" (fingerprint sample80) 0 1 "u" "u"
    false false true true false false ctxSent [Event.timerFire sample80 0 false false]
  have h2 := C10_key_updated_first sample80 sample80 (fingerprint sample80)
    (fingerprint sample80) 1 1 "u" "u" true true true true false false ctxSent []
  refine ⟨(h.1 (by decide)).1, ?_, ?_⟩
  · exact h2.2.2.2.1 rfl
  · exact h.2.2.2.2 rfl (by decide)

end JDScan
